import Mathlib

/-!
Verification of the conversational document-transformation pipeline
(`azure_function_ppt` / `azure_function_pdf`): a shallow embedding of the
tag parser, conversation resolver, intent resolver, structure planner,
table detector, layout mapper and the PowerPoint orchestrator, together
with theorems settling the specification claims about them.

Strings are modelled over ASCII inputs: Python's `\w`, `\s`, `[A-Z]`,
`str.lower()` and `str.strip()` agree with the ASCII-level models below on
such inputs.  Arithmetic comparisons against the literal `0.6` in the
table detector are modelled exactly over the rationals
(`10 * matchCount >= 6 * len`), which agrees with the Python float comparison
for all realistic list lengths.
-/

namespace DocGen

/-- Python whitespace for `str.strip` / `\s`: space, tab, LF, CR, VT, FF. -/
def isPySpace (c : Char) : Bool :=
  c == ' ' || c == '\t' || c == '\n' || c == '\r' ||
  c == Char.ofNat 11 || c == Char.ofNat 12

/-- Python `\w` on ASCII: letters, digits, underscore. -/
def isWordChar (c : Char) : Bool :=
  c.isAlphanum || c == '_'

/-- Python `str.strip()` on ASCII input. -/
def pyStrip (s : String) : String :=
  String.mk (((s.data.dropWhile isPySpace).reverse.dropWhile isPySpace).reverse)

/-- Python `str.lower()` on ASCII input. -/
def pyLower (s : String) : String :=
  String.mk (s.data.map Char.toLower)

/-- Python `str.upper()` on ASCII input. -/
def pyUpper (s : String) : String :=
  String.mk (s.data.map Char.toUpper)

/-- `needle` occurs as a contiguous sublist of `hay` (Python `needle in hay`). -/
def containsSub (needle : List Char) : List Char → Bool
  | [] => needle.isEmpty
  | c :: rest => needle.isPrefixOf (c :: rest) || containsSub needle rest

/-- Python `needle in hay` on strings. -/
def strContains (hay needle : String) : Bool :=
  containsSub needle.data hay.data

/-- Split at the first occurrence of `marker`, returning the text before and
after it; `none` when the marker does not occur (Python `s.split(m, 1)`
after an `m in s` check). -/
def splitFirst (marker : List Char) : List Char → Option (List Char × List Char)
  | [] => none
  | c :: rest =>
    if marker.isPrefixOf (c :: rest) then some ([], (c :: rest).drop marker.length)
    else
      match splitFirst marker rest with
      | some (pre, post) => some (c :: pre, post)
      | none => none

/-- Helper for Python `str.split()` (split on whitespace runs): processes the
character list from the right, returning the word being built and the words
already completed. -/
def pySplitAux : List Char → List Char × List String
  | [] => ([], [])
  | c :: rest =>
    let r := pySplitAux rest
    if isPySpace c then
      ([], if r.1.isEmpty then r.2 else String.mk r.1 :: r.2)
    else
      (c :: r.1, r.2)

/-- Python `str.split()` with no arguments: words separated by whitespace runs. -/
def pySplitWhitespace (s : String) : List String :=
  let r := pySplitAux s.data
  if r.1.isEmpty then r.2 else String.mk r.1 :: r.2

/-! ## Table detection (`powerpoint_builder_agent._detect_table_content`)

The four structural regexes of the source,

  `\w+\s*:\s*\$[\d,]+`, `\w+\s*:\s*\d+\.?\d*%`, `\w+\s*:\s*\d+`,
  `[A-Z][^:]*:\s*.+`,

all anchor on a colon, so `re.search` for their disjunction is: some colon
of the string has a matching left and right context.  The contexts are
modelled below; `rev` is the text before the colon, reversed. -/

/-- Left context of patterns 1-3 (`\w+\s*` before the colon): skipping
whitespace backwards from the colon reaches a word character. -/
def beforeWord (rev : List Char) : Bool :=
  match rev.dropWhile isPySpace with
  | c :: _ => isWordChar c
  | [] => false

/-- Left context of pattern 4 (`[A-Z][^:]*` before the colon): the segment
back to the previous colon contains an ASCII uppercase letter. -/
def beforeUpper (rev : List Char) : Bool :=
  (rev.takeWhile (fun c => c != ':')).any Char.isUpper

/-- Right context of `\s*\$[\d,]+` after the colon. -/
def afterDollar (l : List Char) : Bool :=
  match l.dropWhile isPySpace with
  | '$' :: c :: _ => c.isDigit || c == ','
  | _ => false

/-- Right context of `\s*\d+\.?\d*%` after the colon. -/
def afterPercent (l : List Char) : Bool :=
  let l1 := l.dropWhile isPySpace
  let ds := l1.takeWhile Char.isDigit
  let r1 := l1.dropWhile Char.isDigit
  if ds.isEmpty then false
  else
    match r1 with
    | '.' :: r2 => (r2.dropWhile Char.isDigit).head? == some '%'
    | _ => r1.head? == some '%'

/-- Right context of `\s*\d+` after the colon. -/
def afterNumber (l : List Char) : Bool :=
  match l.dropWhile isPySpace with
  | c :: _ => c.isDigit
  | [] => false

/-- Right context of `\s*.+` after the colon: Python `.` excludes only the
newline, and a newline is also `\s`, so this holds exactly when some
character after the colon is not a newline. -/
def afterAny (l : List Char) : Bool :=
  l.any (fun c => c != '\n')

/-- Scan every colon of the string (suffix with its reversed prefix) and test
the per-colon predicate `p rev suffixAfterColon`. -/
def findColonMatch (p : List Char → List Char → Bool) : List Char → List Char → Bool
  | _, [] => false
  | rev, c :: rest =>
    (c == ':' && p rev rest) || findColonMatch p (c :: rev) rest

/-- The item matches one of the four structural table patterns
(disjunction of the four `re.search` calls of the source). -/
def itemMatchesTablePattern (s : String) : Bool :=
  findColonMatch
    (fun rev suf =>
      (beforeWord rev && (afterDollar suf || afterPercent suf || afterNumber suf)) ||
      (beforeUpper rev && afterAny suf))
    [] s.data

/-- `comparison_keywords` of `_detect_table_content`. -/
def comparisonKeywords : List String :=
  ["vs", "versus", "compared to", "difference", "increase", "decrease",
   "before", "after", "baseline", "target", "actual", "budget",
   "quarter", "year", "month", "period", "phase"]

/-- The lowered item contains one of the comparison keywords. -/
def hasComparisonContext (item : String) : Bool :=
  comparisonKeywords.any (fun k => strContains (pyLower item) k)

/-- The `is_table` decision of `_detect_table_content`: at least 3 items; the
pattern matches and the comparison context are sampled over the first 6
items; a table needs `matchCount >= 0.6 * len`, `matchCount >= 3`, and either
comparison context or `matchCount >= 4`. -/
def detectTableContent (content_list : List String) : Bool :=
  if content_list.length < 3 then false
  else
    let sample := content_list.take 6
    let nMatches := (sample.filter itemMatchesTablePattern).length
    let hasCtx := sample.any hasComparisonContext
    if 10 * nMatches ≥ 6 * content_list.length ∧ 3 ≤ nMatches ∧
        (hasCtx = true ∨ 4 ≤ nMatches) then true
    else false

/-- `header_indicators` of `_parse_table_data`. -/
def headerIndicators : List String :=
  ["phase", "description", "item", "value", "category", "type", "name",
   "amount", "date", "status"]

/-- Month names used by `_parse_table_data` header inference. -/
def monthNames : List String :=
  ["january", "february", "march", "april", "may", "june", "july",
   "august", "september", "october", "november", "december"]

/-- Months plus quarter tokens used by the header-less branch. -/
def monthQuarterNames : List String :=
  monthNames ++ ["q1", "q2", "q3", "q4"]

/-- One data row of `_parse_table_data`: split the stripped item on its first
colon into two cells; a colon-less item goes entirely into the first cell. -/
def splitRowOnColon (item : String) : List String :=
  let item_str := pyStrip item
  match splitFirst [':'] item_str.data with
  | some (pre, post) => [pyStrip (String.mk pre), pyStrip (String.mk post)]
  | none => [item_str, ""]

/-- `_parse_table_data`: header detection and row parsing, capped at 8 rows. -/
def parseTableData (content_list : List String) : List (List String) :=
  let first_item := pyStrip (content_list.head?.getD "")
  let firstLower := pyLower first_item
  let has_headers :=
    !(first_item.data.contains ':') &&
    headerIndicators.any (fun k => strContains firstLower k) &&
    decide (1 < content_list.length)
  let table_data :=
    if has_headers then
      let sample_content :=
        if 1 < content_list.length then content_list.getD 1 ""
        else content_list.getD 0 ""
      let headers :=
        if strContains firstLower "phase" then ["Phase", "Description"]
        else if strContains firstLower "budget" || strContains sample_content "$" then
          ["Item", "Amount"]
        else if strContains firstLower "team" ||
            strContains (pyLower sample_content) "member" then ["Team", "Size"]
        else if strContains firstLower "metric" || strContains sample_content "%" then
          ["Metric", "Value"]
        else if strContains firstLower "timeline" ||
            monthNames.any (fun m => strContains (pyLower sample_content) m) then
          ["Deliverable", "Timeline"]
        else ["Category", "Description"]
      let start_index :=
        if headerIndicators.any (fun k => strContains firstLower k) then 1 else 0
      headers :: (content_list.drop start_index).map splitRowOnColon
    else
      let sample_content := content_list.head?.getD ""
      let headers :=
        if strContains sample_content "$" then ["Item", "Amount"]
        else if strContains sample_content "%" then ["Factor", "Percentage"]
        else if monthQuarterNames.any (fun m => strContains (pyLower sample_content) m) then
          ["Activity", "Timeline"]
        else if strContains (pyLower sample_content) "team" ||
            strContains (pyLower sample_content) "department" then
          ["Department", "Details"]
        else ["Item", "Details"]
      headers :: content_list.map splitRowOnColon
  table_data.take 8

/-! ## Tag parsing and conversation resolution
(`ppt_orchestrator._parse_document_extraction`,
`_extract_document_from_conversation_history`, `_is_continuation_request`;
the pdf orchestrator's copies are identical except for the keyword list). -/

/-- The pdf extraction marker literal. -/
def pdfMarker : List Char := "[pdf_extraction]".data

/-- The word extraction marker literal. -/
def wordMarker : List Char := "[word_document_extraction]".data

/-- Result triple of `_parse_document_extraction`:
`(document_content, user_input, file_type)`. -/
structure ParsedExtraction where
  document_content : Option String
  user_input : Option String
  file_type : Option String
deriving DecidableEq

/-- `_parse_document_extraction`: split at the first marker; blank-after-strip
text on either side becomes `None`; with no marker, the whole message is the
user input. -/
def parseDocumentExtraction (user_message : String) : ParsedExtraction :=
  match splitFirst pdfMarker user_message.data with
  | some (pre, post) =>
    let ui := pyStrip (String.mk pre)
    let dc := pyStrip (String.mk post)
    ⟨if dc = "" then none else some dc, if ui = "" then none else some ui, some "pdf"⟩
  | none =>
    match splitFirst wordMarker user_message.data with
    | some (pre, post) =>
      let ui := pyStrip (String.mk pre)
      let dc := pyStrip (String.mk post)
      ⟨if dc = "" then none else some dc, if ui = "" then none else some ui, some "word"⟩
    | none => ⟨none, some user_message, none⟩

/-- A conversation message (`{role, content}` dict). -/
structure Msg where
  role : String
  content : String
deriving DecidableEq

/-- Payload lookup in a single history message: the marker must be present and
the text after it non-blank, else the scan moves on (note the `elif`: a pdf
marker with a blank payload hides a word marker in the same message). -/
def extractFromMessage (content : String) : Option (String × String) :=
  match splitFirst pdfMarker content.data with
  | some (_, post) =>
    let d := pyStrip (String.mk post)
    if d = "" then none else some (d, "pdf")
  | none =>
    match splitFirst wordMarker content.data with
    | some (_, post) =>
      let d := pyStrip (String.mk post)
      if d = "" then none else some (d, "word")
    | none => none

/-- Walk a message list front to back, returning the first user message that
carries a payload. -/
def extractDocAux : List Msg → Option (String × String)
  | [] => none
  | m :: rest =>
    if m.role = "user" then
      match extractFromMessage m.content with
      | some r => some r
      | none => extractDocAux rest
    else extractDocAux rest

/-- `_extract_document_from_conversation_history`: most recent first. -/
def extractDocumentFromHistory (conversation : List Msg) : Option (String × String) :=
  extractDocAux conversation.reverse

/-- `continuation_keywords` of the ppt orchestrator. -/
def pptContinuationKeywords : List String :=
  ["create", "generate", "make", "build", "produce", "presentation",
   "slides", "powerpoint", "ppt", "show", "present", "convert",
   "transform", "turn into", "export", "output",
   "the document", "this document", "the file", "this file",
   "it", "this", "that", "from this", "based on", "proceed"]

/-- `_is_continuation_request` of the ppt orchestrator: keyword hit or a short
action request, and a previous document must exist in the history. -/
def isContinuationRequest (user_message : String) (conversation : List Msg) : Bool :=
  let user_lower := pyLower user_message
  let has_continuation_keywords :=
    pptContinuationKeywords.any (fun k => strContains user_lower k)
  let has_previous_document := (extractDocumentFromHistory conversation).isSome
  let is_short_action_request :=
    decide ((pySplitWhitespace user_message).length ≤ 10) &&
    (["create", "make", "generate", "show", "convert"].any
      (fun a => strContains user_lower a))
  (has_continuation_keywords || is_short_action_request) && has_previous_document

/-- `continuation_keywords` of the pdf orchestrator. -/
def pdfContinuationKeywords : List String :=
  ["create", "generate", "make", "build", "produce",
   "summarize", "summary", "analyze", "process", "extract",
   "show me", "give me", "provide",
   "the document", "this document", "the file", "this file",
   "it", "this", "that"]

/-- `_is_continuation_request` of the pdf orchestrator: keyword hit and a
previous document in the history. -/
def pdfIsContinuationRequest (user_message : String) (conversation : List Msg) : Bool :=
  let user_lower := pyLower user_message
  let has_continuation_keywords :=
    pdfContinuationKeywords.any (fun k => strContains user_lower k)
  let has_previous_document := (extractDocumentFromHistory conversation).isSome
  has_continuation_keywords && has_previous_document

/-! ## Layout mapping (`powerpoint_builder_agent._get_layout_index`). -/

/-- `_get_layout_index`: title slides use slot 0, thank-you slides slot 2,
everything else slot 1; an out-of-range ideal slot falls back to slot 0. -/
def getLayoutIndex (slide_type : String) (max_layouts : Nat) : Nat :=
  let layout_index :=
    if slide_type = "TITLE_SLIDE" then 0
    else if slide_type = "THANK_YOU_SLIDE" then 2
    else 1
  if layout_index ≥ max_layouts then 0 else layout_index

/-! ## Structure planning (`config.py` and `presentation_structure_agent.py`). -/

/-- `PRESENTATION_CONFIG["min_slides"]`. -/
def minSlides : Int := 3

/-- `PRESENTATION_CONFIG["max_slides"]` (= `get_max_slides()`). -/
def maxSlides : Int := 30

/-- Replace every occurrence of `pat` by `rep` (Python `str.replace`). -/
def replaceAll (pat rep : List Char) (l : List Char) : List Char :=
  if hp : pat.isEmpty then l
  else
    match l with
    | [] => []
    | c :: rest =>
      if pat.isPrefixOf (c :: rest) then
        rep ++ replaceAll pat rep ((c :: rest).drop pat.length)
      else
        c :: replaceAll pat rep rest
termination_by l.length
decreasing_by
  · simp only [List.length_drop, List.length_cons]
    have h1 : pat ≠ [] := by simpa [List.isEmpty_iff] using hp
    have h2 : 0 < pat.length := List.length_pos.mpr h1
    omega
  · simp

/-- Python `str.replace` on strings. -/
def strReplace (s pat rep : String) : String :=
  String.mk (replaceAll pat.data rep.data s.data)

/-- Helper for Python `str.title()`: the boolean records whether the previous
character was alphabetic (cased). -/
def pyTitleAux : Bool → List Char → List Char
  | _, [] => []
  | prevCased, c :: rest =>
    let c2 := if c.isAlpha then (if prevCased then c.toLower else c.toUpper) else c
    c2 :: pyTitleAux c.isAlpha rest

/-- Python `str.title()` on ASCII input. -/
def pyTitle (s : String) : String :=
  String.mk (pyTitleAux false s.data)

/-- One entry of the outline produced by `get_outline_structure`. -/
structure OutlineItem where
  type : String
  title : String
deriving DecidableEq

/-- The minimal outline used for presentations shorter than 6 slides. -/
def minimalOutline : List OutlineItem :=
  [⟨"TITLE_SLIDE", "Title"⟩,
   ⟨"OVERVIEW_SLIDE", "Overview"⟩,
   ⟨"ANALYSIS_SLIDE", "Analysis"⟩,
   ⟨"RECOMMENDATIONS_SLIDE", "Recommendations"⟩,
   ⟨"THANK_YOU_SLIDE", "Thank You"⟩]

/-- `content_types` of `get_outline_structure`. -/
def contentTypes : List String :=
  ["ANALYSIS_SLIDE", "OBJECTIVES_SLIDE", "PROCESS_SLIDE", "RESULTS_SLIDE"]

/-- `get_outline_structure`: clamp up to the minimum slide count; below 6
slides take a prefix of the minimal outline, otherwise wrap rotating content
slides between the three fixed openers and the two fixed closers. -/
def getOutlineStructure (available_slides : Int) : List OutlineItem :=
  let a := max available_slides minSlides
  if a < 6 then
    minimalOutline.take a.toNat
  else
    let content_slots := max 1 (a - 5)
    let contentSlides := (List.range content_slots.toNat).map (fun i =>
      let slide_type := contentTypes.getD (i % contentTypes.length) ""
      OutlineItem.mk slide_type (pyTitle (strReplace slide_type "_SLIDE" "")))
    [OutlineItem.mk "TITLE_SLIDE" "Title",
     OutlineItem.mk "AGENDA_SLIDE" "Agenda",
     OutlineItem.mk "OVERVIEW_SLIDE" "Overview"]
    ++ contentSlides
    ++ [OutlineItem.mk "RECOMMENDATIONS_SLIDE" "Recommendations",
        OutlineItem.mk "THANK_YOU_SLIDE" "Thank You"]

/-- One slide dict of a `presentation_structure` list. -/
structure Slide where
  slide_number : Int
  slide_type : String
  title : String
  content_outline : List String
deriving DecidableEq

/-- `_get_content_outline_for_type`. -/
def getContentOutlineForType (slide_type : String) : List String :=
  if slide_type = "TITLE_SLIDE" then ["Main title", "Subtitle", "Presenter information"]
  else if slide_type = "AGENDA_SLIDE" then ["Topic 1", "Topic 2", "Topic 3", "Q&A"]
  else if slide_type = "INTRODUCTION_SLIDE" then ["Background", "Context", "Objectives"]
  else if slide_type = "KEY_INSIGHT_SLIDE" then
    ["Main finding", "Supporting evidence", "Implications"]
  else if slide_type = "RECOMMENDATIONS_SLIDE" then
    ["Action item 1", "Action item 2", "Next steps"]
  else if slide_type = "CONCLUSION_SLIDE" then
    ["Key takeaways", "Summary of insights", "Final thoughts"]
  else if slide_type = "THANK_YOU_SLIDE" then ["Thank you"]
  else ["Key point 1", "Key point 2", "Key point 3"]

/-- Build the slide list from the standard outline for a target count
(the loop shared by `_adjust_structure_length` and
`_create_fallback_structure`). -/
def buildOutlineSlides (target : Int) : List Slide :=
  (getOutlineStructure target).enum.map (fun p =>
    Slide.mk ((p.1 : Int) + 1) p.2.type p.2.title (getContentOutlineForType p.2.type))

/-- `_adjust_structure_length`: an already matching list is returned as is;
otherwise the whole structure is regenerated from the standard outline. -/
def adjustStructureLength (structure0 : List Slide) (target_slides : Int) : List Slide :=
  if (structure0.length : Int) = target_slides then structure0
  else buildOutlineSlides target_slides

/-- The fields of the planner's parsed AI response that
`_validate_and_enforce_limits` reads: `slide_planning.get("optimal_slides",
10)`, `slide_planning["reasoning"]` (may be absent), and
`result.get("presentation_structure", [])`. -/
structure AIStructureResponse where
  optimal_slides : Option Int
  reasoning : Option String
  presentation_structure : List Slide
deriving DecidableEq

/-- The planner's returned plan: the `slide_planning.optimal_slides` and
`slide_planning.reasoning` fields and the `presentation_structure` list of
the returned JSON (the `content_analysis` and `max_slides_enforced` fields
carry no claim and are omitted). -/
structure StructureResult where
  optimal_slides : Int
  reasoning : Option String
  presentation_structure : List Slide
deriving DecidableEq

/-- Tail of `_validate_and_enforce_limits`: write back the clamped count and
regenerate the structure when its length disagrees. -/
def finishStructure (optimal : Int) (reasoning : Option String)
    (structure0 : List Slide) : StructureResult :=
  ⟨optimal, reasoning,
   if (structure0.length : Int) = optimal then structure0
   else adjustStructureLength structure0 optimal⟩

/-- `_create_fallback_structure`: segment the content on blank lines, choose
7/10/12 slides by topic count, clamp to the configured bounds, and emit the
standard outline of that length. -/
def createFallbackStructure (content : String) : StructureResult :=
  let content_sections := content.splitOn "\n\n"
  let main_topics :=
    ((content_sections.take 8).filter (fun s => pyStrip s ≠ "")).map
      (fun s => s.take 50 ++ "...")
  let fallback_slides0 : Int :=
    if main_topics.length ≤ 2 then 7
    else if main_topics.length ≤ 5 then 10
    else 12
  let fallback_slides := max minSlides (min fallback_slides0 maxSlides)
  ⟨fallback_slides,
   some ("Fallback analysis - " ++ toString main_topics.length ++
     " topics detected, using " ++ toString fallback_slides ++ " slides"),
   buildOutlineSlides fallback_slides⟩

/-- `_validate_and_enforce_limits` on a successfully parsed response: clamp
`optimal_slides` into `[min_slides, max_slides]` (a clamp appends to the
reasoning string, so a missing reasoning key raises and the exception
handler returns the fallback structure), then reconcile the structure
length. -/
def validateAndEnforceLimits (r : AIStructureResponse) (content : String) :
    StructureResult :=
  let optimal0 := r.optimal_slides.getD 10
  if optimal0 > maxSlides then
    match r.reasoning with
    | none => createFallbackStructure content
    | some reas =>
      finishStructure maxSlides
        (some (reas ++ " | Limited to maximum " ++ toString maxSlides ++ " slides"))
        r.presentation_structure
  else if optimal0 < minSlides then
    match r.reasoning with
    | none => createFallbackStructure content
    | some reas =>
      finishStructure minSlides
        (some (reas ++ " | Minimum " ++ toString minSlides ++ " slides enforced"))
        r.presentation_structure
  else
    finishStructure optimal0 r.reasoning r.presentation_structure

/-! ## Intent resolution, pdf side (`smart_intent_processor.py` and
`pdf_orchestrator._analyze_intent_and_classify`).

A collaborator response dict is modelled field by field with `Option`
(absent key = `none`); `confidence` is a rational, matching the Python
float comparisons against `0.5`/`0.7` exactly for decimal literals. -/

/-- The intent-analysis dict of the pdf pipeline (the
`user_question_extracted` field carries no claim and is omitted). -/
structure IntentJson where
  intent : Option String
  document_type : Option String
  confidence : Option ℚ
  action : Option String
  reasoning : Option String
  ambiguity_level : Option String
  fallback_used : Option Bool
deriving DecidableEq

/-- CV indicator keywords of `_apply_smart_enhancements` and
`_create_consolidated_fallback`. -/
def cvIndicatorsSix : List String :=
  ["resume", "cv", "experience", "education", "skills", "work history"]

/-- CV indicator keywords of `_create_smart_fallback` (without
"work history"). -/
def cvIndicatorsFive : List String :=
  ["resume", "cv", "experience", "education", "skills"]

/-- An indicator occurs in the lowered document content. -/
def contentLooksCv (indicators : List String) (document_content : String) : Bool :=
  indicators.any (fun k => strContains (pyLower document_content) k)

/-- Question-style keywords of the pdf fallbacks. -/
def questionWords : List String :=
  ["what", "tell", "explain", "show", "describe"]

/-- `_create_smart_fallback` of the smart intent processor. -/
def createSmartFallback (user_input document_content : String) : IntentJson :=
  let user_lower := pyLower user_input
  if questionWords.any (fun w => strContains user_lower w) then
    ⟨some "INFORMATION_REQUEST", some "GENERAL", some (7/10), some "quick_summary",
     some "Fallback: Question words indicate information request",
     some "high", some true⟩
  else
    let isCv := contentLooksCv cvIndicatorsFive document_content
    ⟨some "PROCESSING_REQUEST", some (if isCv then "CV" else "GENERAL"), some (6/10),
     some (if isCv then "process_cv" else "process_general"),
     some "Fallback: Default to processing for ambiguous requests",
     some "high", some true⟩

/-- `_apply_smart_enhancements` on a parsed response: confidence below 0.5
forces processing intent, content-derived document type and
`fallback_used = true` (appending to a missing reasoning key raises, so the
handler returns the fallback); 0.5-0.7 and above only set the ambiguity
level and `fallback_used = false`. -/
def applySmartEnhancements (r : IntentJson) (user_input document_content : String) :
    IntentJson :=
  let confidence := r.confidence.getD (1/2)
  if confidence < (1/2 : ℚ) then
    match r.reasoning with
    | none => createSmartFallback user_input document_content
    | some reas =>
      let isCv := contentLooksCv cvIndicatorsSix document_content
      { r with
        fallback_used := some true
        ambiguity_level := some "high"
        document_type := some (if isCv then "CV" else "GENERAL")
        action := some (if isCv then "process_cv" else "process_general")
        intent := some "PROCESSING_REQUEST"
        reasoning := some (reas ++ " | Applied smart defaults for ambiguous request") }
  else if confidence < (7/10 : ℚ) then
    { r with ambiguity_level := some "medium", fallback_used := some false }
  else
    { r with ambiguity_level := some "low", fallback_used := some false }

/-- `pdf_orchestrator._create_consolidated_fallback`. -/
def createConsolidatedFallback (user_input document_content : String) : IntentJson :=
  let user_lower := pyLower user_input
  if questionWords.any (fun w => strContains user_lower w) then
    ⟨some "INFORMATION_REQUEST", some "GENERAL", some (6/10), some "quick_summary",
     some "Fallback analysis using keyword patterns", none, some true⟩
  else
    let isCv := contentLooksCv cvIndicatorsSix document_content
    ⟨some "PROCESSING_REQUEST", some (if isCv then "CV" else "GENERAL"), some (6/10),
     some (if isCv then "process_cv" else "process_general"),
     some "Fallback analysis using keyword patterns", none, some true⟩

/-- `_analyze_intent_and_classify` fills the four required fields of the
enhanced dict with defaults when absent. -/
def ensureRequiredFields (r : IntentJson) : IntentJson :=
  { r with
    intent := some (r.intent.getD "PROCESSING_REQUEST")
    document_type := some (r.document_type.getD "GENERAL")
    confidence := some (r.confidence.getD (6/10))
    action := some (r.action.getD "process_general") }

/-- Outcome of the call into the smart intent processor: the processor class
may be unavailable (orchestrator falls back itself), the AI call inside the
processor may raise, or the AI returns text that parses (`some r`) or does
not parse (`none`) as JSON. -/
inductive ProcessorOutcome where
  | unavailable : ProcessorOutcome
  | agentError : ProcessorOutcome
  | response : Option IntentJson → ProcessorOutcome
deriving DecidableEq

/-- The pdf classification chain (`_analyze_intent_and_classify` composed with
the smart intent processor): processor unavailable uses the orchestrator's
consolidated fallback; an AI failure or unparseable output uses the
processor's smart fallback; a parsed response is enhanced; all but the
unavailable path then pass through the required-field filling. -/
def analyzeIntentAndClassify (o : ProcessorOutcome)
    (user_input document_content : String) : IntentJson :=
  match o with
  | .unavailable => createConsolidatedFallback user_input document_content
  | .agentError => ensureRequiredFields (createSmartFallback user_input document_content)
  | .response none =>
    ensureRequiredFields (createSmartFallback user_input document_content)
  | .response (some r) =>
    ensureRequiredFields (applySmartEnhancements r user_input document_content)

/-! ## Intent resolution, ppt side (`smart_presentation_processor_skill.py`
and `ppt_orchestrator._analyze_presentation_intent`). -/

/-- The presentation-analysis dict of the ppt pipeline. -/
structure PresentationJson where
  intent : Option String
  confidence : Option ℚ
  reasoning : Option String
  estimated_slides : Option Int
  content_highlights : Option (List String)
  fallback_used : Option Bool
deriving DecidableEq

/-- Python `str.isupper()` on ASCII input: at least one cased character and
every cased character uppercase. -/
def pyIsUpper (s : String) : Bool :=
  s.data.any Char.isAlpha && s.data.all (fun c => !c.isAlpha || c.isUpper)

/-- The scanning loop of `_extract_content_highlights`: short or heading-like
stripped lines are collected (truncated to 50 characters), skipping
duplicates and very short lines, stopping at 5. -/
def highlightsLoop (acc : List String) : List String → List String
  | [] => acc
  | l :: rest =>
    let line := pyStrip l
    if line != "" &&
        (pyIsUpper line || line.startsWith "#" ||
          decide ((pySplitWhitespace line).length ≤ 8)) then
      if !(acc.contains line) && decide (3 < line.length) then
        let acc2 := acc ++ [line.take 50]
        if 5 ≤ acc2.length then acc2 else highlightsLoop acc2 rest
      else highlightsLoop acc rest
    else highlightsLoop acc rest

/-- `_extract_content_highlights`: scan the first 20 lines; when nothing is
found, fall back to the first three sentence fragments. -/
def extractContentHighlights (document_content : String) : List String :=
  let lines := document_content.splitOn "\n"
  let highlights := highlightsLoop [] (lines.take 20)
  let highlights2 :=
    if highlights.isEmpty then
      ((document_content.splitOn ".").take 3).filter (fun s => pyStrip s ≠ "")
        |>.map (fun s => (pyStrip s).take 50)
    else highlights
  highlights2.take 5

/-- `_create_presentation_fallback` of the smart presentation processor. -/
def createPresentationFallback (user_input document_content : String) :
    PresentationJson :=
  let user_lower := pyLower user_input
  let informational :=
    ["what", "how", "explain", "capabilities", "features"].any
      (fun w => strContains user_lower w)
  ⟨some (if informational then "INFORMATION_REQUEST" else "CREATE_PRESENTATION"),
   some (6/10),
   some "Fallback analysis using keyword patterns and document structure",
   some (if informational then 0 else 12),
   some (extractContentHighlights document_content),
   some true⟩

/-- Tail of `_validate_and_enhance_response`: fill missing content highlights
and set `fallback_used = false` unconditionally. -/
def pptFinishResponse (r : PresentationJson) (document_content : String) :
    PresentationJson :=
  let r2 :=
    if r.content_highlights.isNone then
      { r with content_highlights := some (extractContentHighlights document_content) }
    else r
  { r2 with fallback_used := some false }

/-- `_validate_and_enhance_response` on a parsed response: clamp the slide
estimate into 8..15 (a clamp appends to the reasoning string, so a missing
reasoning key raises and the handler returns the fallback), then fill
highlights and force `fallback_used = false`. -/
def validateAndEnhanceResponse (r : PresentationJson)
    (user_input document_content : String) : PresentationJson :=
  let estimated_slides := r.estimated_slides.getD 12
  if estimated_slides > 15 then
    match r.reasoning with
    | none => createPresentationFallback user_input document_content
    | some reas =>
      pptFinishResponse
        { r with
          estimated_slides := some 15
          reasoning := some (reas ++ " | Limited to max 15 slides") }
        document_content
  else if estimated_slides < 8 then
    match r.reasoning with
    | none => createPresentationFallback user_input document_content
    | some reas =>
      pptFinishResponse
        { r with
          estimated_slides := some 12
          reasoning := some (reas ++ " | Minimum 8 slides for effective presentation") }
        document_content
  else
    pptFinishResponse r document_content

/-- `ppt_orchestrator._create_presentation_fallback` (the orchestrator's own
fallback, distinct from the processor's). -/
def createOrchestratorPresentationFallback : PresentationJson :=
  ⟨some "CREATE_PRESENTATION", some (6/10),
   some "Fallback analysis - generating standard business presentation",
   some 12, none, some true⟩

/-- `_analyze_presentation_intent` fills the three required fields with
defaults when absent. -/
def pptEnsureRequiredFields (r : PresentationJson) : PresentationJson :=
  { r with
    intent := some (r.intent.getD "CREATE_PRESENTATION")
    confidence := some (r.confidence.getD (7/10))
    estimated_slides := some (r.estimated_slides.getD 12) }

/-- Outcome of the call into the smart presentation processor (see
`ProcessorOutcome`). -/
inductive PptOutcome where
  | unavailable : PptOutcome
  | agentError : PptOutcome
  | response : Option PresentationJson → PptOutcome
deriving DecidableEq

/-- The ppt intent-analysis chain (`_analyze_presentation_intent` composed
with the smart presentation processor). -/
def analyzePresentationIntent (o : PptOutcome)
    (user_input document_content : String) : PresentationJson :=
  match o with
  | .unavailable => createOrchestratorPresentationFallback
  | .agentError =>
    pptEnsureRequiredFields (createPresentationFallback user_input document_content)
  | .response none =>
    pptEnsureRequiredFields (createPresentationFallback user_input document_content)
  | .response (some r) =>
    pptEnsureRequiredFields (validateAndEnhanceResponse r user_input document_content)

/-! ## The ppt orchestrator (`ppt_orchestrator.process_conversation_request`)

External collaborator behaviour is abstracted into oracles: the intent
analysis outcome, the three string-transforming content stages (`none`
models the stage raising, which the orchestrator converts into passing its
input through), and the builder (`Except.error` models the builder raising,
the orchestrator's only fatal stage).  The session id is taken as already
resolved (its generation mixes in a uuid and the clock). -/

/-- `get_complete_pipeline()`. -/
def completePipeline : List String :=
  ["SmartPresentationProcessor", "DocumentContentExtractor",
   "PresentationStructureAgent", "SlideContentGenerator", "PowerPointBuilderAgent"]

/-- `get_quick_response_pipeline()`. -/
def quickResponsePipeline : List String :=
  ["SmartPresentationProcessor"]

/-- `_provide_capabilities_info()`. -/
def capabilitiesInfoText : String :=
  "I can create professional PowerPoint presentations from your documents.\n\n**Features:**\n• 12-slide business presentations with company branding\n• Intelligent content organization and summarization\n• Clean slide layouts with proper formatting\n• Support for PDF and Word document input\n\nUpload a document and I\x27ll create a professional presentation automatically."

/-- The assistant message appended by the fatal exception handler. -/
def pptGenericErrorText : String :=
  "I encountered an error generating your presentation. Please try again or upload a different document."

/-- The guidance message of the no-document branch when the message mentions
presentations. -/
def pptUploadPromptText : String :=
  "Please upload a PDF or Word document to create a presentation from. I can generate professional PowerPoint presentations with company branding."

/-- The `processing_info` dict of `_build_response` (keys set by the ppt
orchestrator). -/
structure ProcessingInfo where
  intent : Option PresentationJson
  max_slides : Option Int
  estimated_slides : Option Int
  file_type : Option String
  response_type : Option String
  context_source : Option String
deriving DecidableEq

/-- `processing_info` default: the empty dict. -/
def emptyProcessingInfo : ProcessingInfo := ⟨none, none, none, none, none, none⟩

/-- The response envelope built by `_build_response` (the
`powerpoint_output` pair is `(ppt_data, filename)`). -/
structure PptResponse where
  status : String
  session_id : String
  conversation_history : List Msg
  processing_info : ProcessingInfo
  pipeline_info : List String
  powerpoint_output : Option (String × String)
  error_message : Option String
deriving DecidableEq

/-- `_build_response`: `error_message` is attached only on error status. -/
def buildPptResponse (session_id status : String) (conversation : List Msg)
    (pinfo : ProcessingInfo) (pipeline : List String)
    (output : Option (String × String)) (err : Option String) : PptResponse :=
  ⟨status, session_id, conversation, pinfo, pipeline, output,
   if status = "error" then err else none⟩

/-- The request dict: `session_id` is the resolved id, `user_message`
defaults to the empty string when absent. -/
structure PptRequest where
  session_id : String
  conversation_history : List Msg
  user_message : String

/-- Collaborator oracles of one request (see the section comment). -/
structure PptOracles where
  analysis : PptOutcome
  extractOut : String → Option String
  structureOut : String → Int → Option String
  slideGenOut : String → Option String
  builderOut : String → Except String String

/-- The document-processing branch of `process_conversation_request` (taken
once a payload has been resolved from the current message or the history);
`conversation` already carries the appended user message. -/
def processWithDocument (session_id : String) (conversation : List Msg)
    (document_content : String) (user_input0 : Option String)
    (file_type0 : Option String) (user_message : String) (oracles : PptOracles) :
    PptResponse :=
  let file_type := file_type0.getD ""
  let has_previous_document :=
    some document_content ≠ (parseDocumentExtraction user_message).document_content
  let clean_user_input :=
    user_input0.getD "Create a professional presentation from this document"
  let analysis :=
    analyzePresentationIntent oracles.analysis clean_user_input document_content
  let user_intent := analysis.intent.getD "CREATE_PRESENTATION"
  let estimated_slides := analysis.estimated_slides.getD 12
  let max_slides := min estimated_slides 15
  let context_source : String :=
    if has_previous_document then "previous_conversation" else "current_message"
  if user_intent = "INFORMATION_REQUEST" then
        buildPptResponse session_id "completed"
          (conversation ++ [Msg.mk "assistant" capabilitiesInfoText])
          ⟨some analysis, none, none, some file_type, some "capabilities_info",
           some context_source⟩
          quickResponsePipeline none none
      else if user_intent = "CREATE_PRESENTATION" then
        let extracted_content := (oracles.extractOut document_content).getD document_content
        let presentation_structure :=
          (oracles.structureOut extracted_content max_slides).getD extracted_content
        let slide_content :=
          (oracles.slideGenOut presentation_structure).getD presentation_structure
        match oracles.builderOut slide_content with
        | Except.error e =>
          buildPptResponse session_id "error"
            (conversation ++ [Msg.mk "assistant" pptGenericErrorText])
            emptyProcessingInfo [] none
            (some ("PowerPoint generation error: Failed to generate PowerPoint file: "
              ++ e))
        | Except.ok ppt_base64 =>
          let response_text :=
            (if has_previous_document then
              "I\x27ve created a presentation from the " ++ pyUpper file_type ++
                " document as requested. "
            else
              "I\x27ve created a professional business presentation from your " ++
                pyUpper file_type ++ " document. ") ++
            "The presentation contains " ++ toString max_slides ++
              " slides with company branding and clean formatting."
          buildPptResponse session_id "completed"
            (conversation ++ [Msg.mk "assistant" response_text])
            ⟨some analysis, some max_slides, some estimated_slides, some file_type,
             some "powerpoint_generation", some context_source⟩
            completePipeline
            (some (ppt_base64, "presentation_" ++ session_id ++ ".pptx")) none
      else
        let clarification_response :=
          "I can see you\x27ve uploaded a " ++ pyUpper file_type ++
            " document. Would you like me to create a presentation from it?"
        buildPptResponse session_id "needs_clarification"
          (conversation ++ [Msg.mk "assistant" clarification_response])
          ⟨some analysis, none, none, some file_type, some "clarification_request",
           some context_source⟩
          [] none none

/-- `process_conversation_request` of the ppt orchestrator: reject an empty
message, append the user message, resolve a payload from the message or (for
continuation requests) the history, then run the document branch or report
that a file is awaited. -/
def processConversationRequest (req : PptRequest) (oracles : PptOracles) :
    PptResponse :=
  let session_id := req.session_id
  let user_message := pyStrip req.user_message
  if user_message = "" then
    buildPptResponse session_id "error" req.conversation_history
      emptyProcessingInfo [] none (some "User message required")
  else
    let conversation := req.conversation_history ++ [Msg.mk "user" user_message]
    let parsed := parseDocumentExtraction user_message
    let resolved : Option String × Option String × Option String :=
      match parsed.document_content with
      | some dc => (some dc, parsed.user_input, parsed.file_type)
      | none =>
        if isContinuationRequest user_message conversation then
          match extractDocumentFromHistory conversation with
          | some (d, ft) => (some d, some user_message, some ft)
          | none => (none, some user_message, none)
        else (none, parsed.user_input, parsed.file_type)
    match resolved.1 with
    | none =>
      let response_text :=
        if ["presentation", "powerpoint", "slides", "ppt"].any
            (fun k => strContains (pyLower user_message) k) then
          pptUploadPromptText
        else capabilitiesInfoText
      buildPptResponse session_id "waiting_for_file"
        (conversation ++ [Msg.mk "assistant" response_text])
        emptyProcessingInfo [] none none
    | some document_content =>
      processWithDocument session_id conversation document_content
        resolved.2.1 resolved.2.2 user_message oracles

/-! ## Helper lemmas -/

/-- The outline always has `max available 3` entries: short outlines are a
prefix of the five-slide minimal outline, long ones wrap `available - 5`
content slides in five fixed slides. -/
theorem getOutlineStructure_length (t : Int) :
    (getOutlineStructure t).length = (max t 3).toNat := by
  simp only [getOutlineStructure, minSlides]
  have h3 : (3 : Int) ≤ max t 3 := le_max_right t 3
  split_ifs with h
  · rw [List.length_take]
    have h5 : minimalOutline.length = 5 := by decide
    rw [h5]
    omega
  · simp only [List.length_append, List.length_map, List.length_range,
      List.length_cons, List.length_singleton, List.length_nil]
    omega

/-- The slide list built from the outline has `max target 3` entries. -/
theorem buildOutlineSlides_length (t : Int) :
    (buildOutlineSlides t).length = (max t 3).toNat := by
  simp only [buildOutlineSlides, List.length_map, List.enum_length]
  exact getOutlineStructure_length t

/-- `finishStructure` restores `len(sections) = optimal` whenever the target
is at least the minimum. -/
theorem finishStructure_length (o : Int) (reas : Option String) (s : List Slide)
    (h3 : 3 ≤ o) :
    ((finishStructure o reas s).presentation_structure.length : Int) = o ∧
    (finishStructure o reas s).optimal_slides = o := by
  unfold finishStructure
  refine ⟨?_, rfl⟩
  dsimp only
  split_ifs with h
  · exact h
  · unfold adjustStructureLength
    rw [if_neg h, buildOutlineSlides_length]
    omega

/-- The fallback structure always carries between 3 and 30 slides and a
matching section list. -/
theorem createFallbackStructure_inv (content : String) :
    minSlides ≤ (createFallbackStructure content).optimal_slides ∧
    (createFallbackStructure content).optimal_slides ≤ maxSlides ∧
    (((createFallbackStructure content).presentation_structure.length : Int) =
      (createFallbackStructure content).optimal_slides) := by
  unfold createFallbackStructure minSlides maxSlides
  dsimp only
  rw [buildOutlineSlides_length]
  split_ifs <;> exact ⟨by omega, by omega, by omega⟩

/-- A successful colon scan implies the string holds a colon. -/
theorem findColonMatch_mem (p : List Char → List Char → Bool) :
    ∀ (rev l : List Char), findColonMatch p rev l = true → ':' ∈ l := by
  intro rev l
  induction l generalizing rev with
  | nil => simp [findColonMatch]
  | cons c rest ih =>
    simp only [findColonMatch, Bool.or_eq_true, Bool.and_eq_true, beq_iff_eq]
    rintro (⟨hc, -⟩ | h)
    · exact hc ▸ List.mem_cons_self c rest
    · exact List.mem_cons_of_mem c (ih _ h)

/-- A colon-less item matches none of the four table patterns. -/
theorem itemMatches_of_no_colon (s : String) (h : s.data.contains ':' = false) :
    itemMatchesTablePattern s = false := by
  rcases hb : itemMatchesTablePattern s with _ | _
  · rfl
  · have hmem : ':' ∈ s.data := findColonMatch_mem _ [] s.data hb
    have hc : s.data.contains ':' = true := List.elem_eq_true_of_mem hmem
    rw [hc] at h
    exact absurd h (by simp)

/-! ## Claim theorems -/

/-- C1: every plan returned by the structure planner - the validated primary
path for any parsed response (including its internal fallback on a missing
reasoning key) and the fallback path - has at least `min_slides` and at most
`max_slides` sections, and exactly `slide_planning.optimal_slides` many. -/
theorem C1_bounded_planning (r : AIStructureResponse) (content : String) :
    (minSlides ≤ (validateAndEnforceLimits r content).optimal_slides ∧
      (validateAndEnforceLimits r content).optimal_slides ≤ maxSlides ∧
      (((validateAndEnforceLimits r content).presentation_structure.length : Int) =
        (validateAndEnforceLimits r content).optimal_slides)) ∧
    (minSlides ≤ (createFallbackStructure content).optimal_slides ∧
      (createFallbackStructure content).optimal_slides ≤ maxSlides ∧
      (((createFallbackStructure content).presentation_structure.length : Int) =
        (createFallbackStructure content).optimal_slides)) := by
  refine ⟨?_, createFallbackStructure_inv content⟩
  unfold validateAndEnforceLimits
  dsimp only
  split_ifs with h1 h2
  · cases hr : r.reasoning with
    | none => exact createFallbackStructure_inv content
    | some reas =>
      have h := finishStructure_length maxSlides
        (some (reas ++ " | Limited to maximum " ++ toString maxSlides ++ " slides"))
        r.presentation_structure (by norm_num [maxSlides])
      rw [h.2, h.1]
      refine ⟨by norm_num [minSlides, maxSlides], le_refl _, rfl⟩
  · cases hr : r.reasoning with
    | none => exact createFallbackStructure_inv content
    | some reas =>
      have h := finishStructure_length minSlides
        (some (reas ++ " | Minimum " ++ toString minSlides ++ " slides enforced"))
        r.presentation_structure (by norm_num [minSlides])
      rw [h.2, h.1]
      refine ⟨le_refl _, by norm_num [minSlides, maxSlides], rfl⟩
  · have h3 : minSlides ≤ r.optimal_slides.getD 10 := not_lt.mp h2
    have h := finishStructure_length (r.optimal_slides.getD 10) r.reasoning
      r.presentation_structure (by simpa [minSlides] using h3)
    rw [h.2, h.1]
    exact ⟨h3, not_lt.mp h1, rfl⟩

/-- C2 counterexample: three `label: $amount` items with no comparison
vocabulary all match the structural pattern, yet detection declares no table
(three matches do not reach the four-match threshold and no comparison
context is present). -/
theorem C2_counterexample :
    (["Rent: $500", "Food: $300", "Fuel: $200"].all itemMatchesTablePattern) = true ∧
    detectTableContent ["Rent: $500", "Food: $300", "Fuel: $200"] = false := by
  constructor
  · rfl
  · decide

/-- C2 amended: for a list of exactly 3 items that all match the table
patterns, detection declares a table exactly when some item carries
comparison vocabulary; for 3 colon-less items it always declares none. -/
theorem C2_table_threshold (items : List String) (hlen : items.length = 3) :
    (items.all itemMatchesTablePattern = true →
      detectTableContent items = items.any hasComparisonContext) ∧
    (items.all (fun s => !(s.data.contains ':')) = true →
      detectTableContent items = false) := by
  have htake : items.take 6 = items := List.take_of_length_le (by omega)
  constructor
  · intro hall
    have hfilter : items.filter itemMatchesTablePattern = items :=
      List.filter_eq_self.mpr (fun a ha => List.all_eq_true.mp hall a ha)
    unfold detectTableContent
    rw [if_neg (by omega)]
    dsimp only
    rw [htake, hfilter, hlen]
    by_cases hctx : items.any hasComparisonContext = true
    · rw [if_pos ⟨by omega, by omega, Or.inl hctx⟩, hctx]
    · rw [Bool.not_eq_true] at hctx
      rw [if_neg, hctx]
      rintro ⟨-, -, hor⟩
      rcases hor with hl | hr
      · rw [hctx] at hl
        exact Bool.false_ne_true hl
      · omega
  · intro hnc
    have hfilter : items.filter itemMatchesTablePattern = [] := by
      refine List.filter_eq_nil_iff.mpr (fun a ha => ?_)
      have h1 := List.all_eq_true.mp hnc a ha
      have h2 : a.data.contains ':' = false := by
        cases h : a.data.contains ':' with
        | false => rfl
        | true => rw [h] at h1; exact absurd h1 (by simp)
      simp [itemMatches_of_no_colon a h2]
    unfold detectTableContent
    rw [if_neg (by omega)]
    dsimp only
    rw [htake, hfilter]
    rw [if_neg]
    rintro ⟨-, h3, -⟩
    simp at h3

/-- C2 witness: scenario E declares a table because "Budget" carries
comparison vocabulary, and three plain words declare none. -/
theorem C2_table_threshold_witness :
    (detectTableContent ["Budget: $50,000", "Ops: $30,000", "Support: $20,000"] =
      (["Budget: $50,000", "Ops: $30,000", "Support: $20,000"].any hasComparisonContext)) ∧
    detectTableContent ["alpha", "beta", "gamma"] = false :=
  ⟨(C2_table_threshold _ (by decide)).1 (by decide),
   (C2_table_threshold _ (by decide)).2 (by decide)⟩

/-- Unfolding equation of `splitFirst` at a cons cell. -/
theorem splitFirst_cons (marker : List Char) (c : Char) (rest : List Char) :
    splitFirst marker (c :: rest) =
      if marker.isPrefixOf (c :: rest) then some ([], (c :: rest).drop marker.length)
      else
        match splitFirst marker rest with
        | some (pre, post) => some (c :: pre, post)
        | none => none := rfl

/-- The tag splitter finds the marker exactly at the end of `pre` when no
occurrence starts earlier (no occurrence fits inside
`pre ++ marker.dropLast`). -/
theorem splitFirst_first_occurrence (marker : List Char) (hm : marker ≠ []) :
    ∀ (pre post : List Char),
      containsSub marker (pre ++ marker.dropLast) = false →
      splitFirst marker (pre ++ marker ++ post) = some (pre, post) := by
  intro pre
  induction pre with
  | nil =>
    intro post _
    cases marker with
    | nil => exact absurd rfl hm
    | cons m ms =>
      show splitFirst (m :: ms) (m :: (ms ++ post)) = some ([], post)
      rw [splitFirst_cons, if_pos (List.isPrefixOf_iff_prefix.mpr ⟨post, by simp⟩)]
      rw [List.length_cons, List.drop_succ_cons, List.drop_left]
  | cons c pre' ih =>
    intro post h
    have hmlen : 0 < marker.length := List.length_pos.mpr hm
    have hnp : marker.isPrefixOf (c :: (pre' ++ marker ++ post)) = false := by
      cases hb : marker.isPrefixOf (c :: (pre' ++ marker ++ post)) with
      | false => rfl
      | true =>
        exfalso
        have hpfx : marker <+: c :: (pre' ++ marker ++ post) :=
          List.isPrefixOf_iff_prefix.mp hb
        obtain ⟨t, ht⟩ := List.dropLast_prefix marker
        have hsub : c :: (pre' ++ marker.dropLast) <+: c :: (pre' ++ marker ++ post) := by
          refine List.cons_prefix_cons.mpr ⟨rfl, ⟨t ++ post, ?_⟩⟩
          rw [List.append_assoc pre', ← List.append_assoc marker.dropLast, ht,
            List.append_assoc]
        have hlen : marker.length ≤ (c :: (pre' ++ marker.dropLast)).length := by
          simp [List.length_dropLast]
          omega
        have hshort : marker <+: c :: (pre' ++ marker.dropLast) :=
          List.prefix_of_prefix_length_le hpfx hsub hlen
        have hcs : containsSub marker (c :: (pre' ++ marker.dropLast)) = true := by
          unfold containsSub
          rw [List.isPrefixOf_iff_prefix.mpr hshort]
          simp
        have h2 : containsSub marker (c :: (pre' ++ marker.dropLast)) = false := h
        rw [h2] at hcs
        exact Bool.false_ne_true hcs
    have htail : containsSub marker (pre' ++ marker.dropLast) = false := by
      have h2 : containsSub marker (c :: (pre' ++ marker.dropLast)) = false := h
      unfold containsSub at h2
      rcases Bool.or_eq_false_iff.mp h2 with ⟨-, h3⟩
      exact h3
    show splitFirst marker (c :: (pre' ++ marker ++ post)) = some (c :: pre', post)
    rw [splitFirst_cons, if_neg (by rw [hnp]; exact Bool.false_ne_true), ih post htail]

/-- C3 counterexample: a payload with no text before the marker parses to the
no-instruction value `None`, not to a distinct empty-string instruction. -/
theorem C3_counterexample :
    (parseDocumentExtraction "[pdf_extraction]report text").user_input = none ∧
    (parseDocumentExtraction "[pdf_extraction]report text").user_input ≠ some "" ∧
    (parseDocumentExtraction "[pdf_extraction]report text").document_content =
      some "report text" := by
  refine ⟨rfl, ?_, rfl⟩
  intro h
  simp [show (parseDocumentExtraction "[pdf_extraction]report text").user_input = none
    from rfl] at h

/-- C3 amended: when the marker does not occur earlier in the message,
parsing `i + marker + p` returns the stripped payload and the stripped
instruction (both non-blank); parsing `marker + p` returns the stripped
payload with the no-instruction value `None` - the empty instruction is
collapsed into `None` rather than kept as a distinct empty string. -/
theorem C3_tag_round_trip :
    (∀ i p : String, containsSub pdfMarker (i.data ++ pdfMarker.dropLast) = false →
      pyStrip i ≠ "" → pyStrip p ≠ "" →
      parseDocumentExtraction (i ++ String.mk pdfMarker ++ p) =
        ⟨some (pyStrip p), some (pyStrip i), some "pdf"⟩) ∧
    (∀ p : String, pyStrip p ≠ "" →
      parseDocumentExtraction (String.mk pdfMarker ++ p) =
        ⟨some (pyStrip p), none, some "pdf"⟩) := by
  constructor
  · intro i p hocc hi hp
    unfold parseDocumentExtraction
    have hdata : (i ++ String.mk pdfMarker ++ p).data = i.data ++ pdfMarker ++ p.data := by
      rw [String.data_append, String.data_append]
    rw [hdata, splitFirst_first_occurrence pdfMarker (by decide) i.data p.data hocc]
    dsimp only
    have hmi : String.mk i.data = i := rfl
    have hmp : String.mk p.data = p := rfl
    rw [hmi, hmp, if_neg hp, if_neg hi]
  · intro p hp
    unfold parseDocumentExtraction
    have hdata : (String.mk pdfMarker ++ p).data = [] ++ pdfMarker ++ p.data := by
      rw [String.data_append]
      simp
    rw [hdata, splitFirst_first_occurrence pdfMarker (by decide) [] p.data (by decide)]
    dsimp only
    have hmp : String.mk p.data = p := rfl
    rw [hmp, if_neg hp, if_pos (show pyStrip (String.mk []) = "" from rfl)]

/-- C3 witness: a concrete instruction and payload round-trip, and a bare
tagged payload yields the `None` instruction. -/
theorem C3_tag_round_trip_witness :
    parseDocumentExtraction ("make slides" ++ String.mk pdfMarker ++ "the report") =
      ⟨some "the report", some "make slides", some "pdf"⟩ ∧
    parseDocumentExtraction (String.mk pdfMarker ++ "the report") =
      ⟨some "the report", none, some "pdf"⟩ := by
  constructor
  · have h := C3_tag_round_trip.1 "make slides" "the report" (by decide) (by decide)
      (by decide)
    rw [h]
    rfl
  · have h := C3_tag_round_trip.2 "the report" (by decide)
    rw [h]
    rfl

/-- C4: for one, two, three or eight available layout slots and any slide
type, the layout mapper returns a slot index below the slot count (indices
are naturals, so nonnegativity is built in). -/
theorem C4_layout_in_range (slide_type : String) (n : Nat)
    (h : n = 1 ∨ n = 2 ∨ n = 3 ∨ n = 8) :
    getLayoutIndex slide_type n < n := by
  unfold getLayoutIndex
  dsimp only
  split_ifs <;> omega

/-- C4 witness: one available slot forces slot 0 even for a thank-you slide. -/
theorem C4_layout_in_range_witness :
    (1 = 1 ∨ 1 = 2 ∨ 1 = 3 ∨ 1 = 8) ∧ getLayoutIndex "THANK_YOU_SLIDE" 1 < 1 :=
  ⟨Or.inl rfl, C4_layout_in_range "THANK_YOU_SLIDE" 1 (Or.inl rfl)⟩

/-- C5: when the conversation history holds no prior document payload, the
continuation test of either orchestrator is false for every message. -/
theorem C5_continuation_monotone (m : String) (conversation : List Msg)
    (h : extractDocumentFromHistory conversation = none) :
    isContinuationRequest m conversation = false ∧
    pdfIsContinuationRequest m conversation = false := by
  unfold isContinuationRequest pdfIsContinuationRequest
  rw [h]
  simp

/-- C5 witness: the empty history has no prior document, so "create it" is
not a continuation. -/
theorem C5_continuation_monotone_witness :
    extractDocumentFromHistory [] = none ∧
    (isContinuationRequest "create it" [] = false ∧
      pdfIsContinuationRequest "create it" [] = false) :=
  ⟨rfl, C5_continuation_monotone "create it" [] rfl⟩

/-- C6 counterexample: a one-slide proposal adjusted to three slides is
replaced by the standard outline - the result is neither a truncation of the
proposal nor an extension keeping the proposal as a prefix. -/
theorem C6_counterexample :
    ¬ (adjustStructureLength [Slide.mk 1 "CUSTOM_SLIDE" "My Custom Slide" ["x"]] 3 =
        ([Slide.mk 1 "CUSTOM_SLIDE" "My Custom Slide" ["x"]].take (3 : Int).toNat) ∨
      [Slide.mk 1 "CUSTOM_SLIDE" "My Custom Slide" ["x"]] <+:
        adjustStructureLength [Slide.mk 1 "CUSTOM_SLIDE" "My Custom Slide" ["x"]] 3) := by
  decide

/-- C6 amended: when the proposed section list's length differs from the
clamped target, the planner discards the proposal and regenerates the whole
structure from the standard outline; the result still has exactly
`target_count` sections for any target of at least the 3-slide minimum. -/
theorem C6_adjust_regenerates (s : List Slide) (t : Int)
    (h : (s.length : Int) ≠ t) :
    adjustStructureLength s t = buildOutlineSlides t ∧
    (3 ≤ t → ((adjustStructureLength s t).length : Int) = t) := by
  unfold adjustStructureLength
  rw [if_neg h]
  refine ⟨rfl, fun h3 => ?_⟩
  rw [buildOutlineSlides_length]
  omega

/-- C6 witness: the concrete one-slide proposal against target 4. -/
theorem C6_adjust_regenerates_witness :
    adjustStructureLength [Slide.mk 1 "CUSTOM_SLIDE" "My Custom Slide" ["x"]] 4 =
      buildOutlineSlides 4 ∧
    ((adjustStructureLength [Slide.mk 1 "CUSTOM_SLIDE" "My Custom Slide" ["x"]] 4).length :
      Int) = 4 := by
  have h := C6_adjust_regenerates [Slide.mk 1 "CUSTOM_SLIDE" "My Custom Slide" ["x"]] 4
    (by decide)
  exact ⟨h.1, h.2 (by norm_num)⟩

/-- C10: a content list with strictly more than 10 items is never declared a
table: at most the first 6 items can match, while the 60 percent threshold
is taken over the whole list. -/
theorem C10_long_lists_never_table (items : List String) (h : 10 < items.length) :
    detectTableContent items = false := by
  unfold detectTableContent
  rw [if_neg (by omega)]
  dsimp only
  rw [if_neg]
  rintro ⟨h6, -, -⟩
  have hle : ((items.take 6).filter itemMatchesTablePattern).length ≤ 6 := by
    calc ((items.take 6).filter itemMatchesTablePattern).length
        ≤ (items.take 6).length := List.length_filter_le _ _
      _ ≤ 6 := by rw [List.length_take]; omega
  omega

/-- C10 witness: eleven pattern-matching items still yield no table. -/
theorem C10_long_lists_never_table_witness :
    10 < (["A: $1", "B: $2", "C: $3", "D: $4", "E: $5", "F: $6", "G: $7",
      "H: $8", "I: $9", "J: $10", "K: $11"] : List String).length ∧
    detectTableContent ["A: $1", "B: $2", "C: $3", "D: $4", "E: $5", "F: $6",
      "G: $7", "H: $8", "I: $9", "J: $10", "K: $11"] = false :=
  ⟨by decide, C10_long_lists_never_table _ (by decide)⟩

/-- C7 counterexample: a well-formed collaborator response carrying the
sentinel intent "UNCLEAR" with confidence 0.8 passes through the whole
classification chain unchanged - classification is not confined to the two
defined intents. -/
theorem C7_counterexample :
    (analyzeIntentAndClassify
      (ProcessorOutcome.response (some
        ⟨some "UNCLEAR", some "GENERAL", some (8/10), some "process_general",
         some "confident response", some "low", some false⟩))
      "summarize this" "quarterly report").intent = some "UNCLEAR" := by
  unfold analyzeIntentAndClassify applySmartEnhancements ensureRequiredFields
  dsimp only [Option.getD]
  rw [if_neg (by norm_num), if_neg (by norm_num)]

/-- C7 amended: the classification chain yields one of the two defined
intents whenever the collaborator is unavailable, raises, returns
unparseable output, or returns a response with confidence below 0.5; a
parsed response with confidence at least 0.5 instead has its intent field
passed through unchanged (defaulting to the processing intent only when the
field is absent), so a collaborator-supplied sentinel survives. -/
theorem C7_intent_commitment (o : ProcessorOutcome) (ui dc : String) :
    ((analyzeIntentAndClassify o ui dc).intent = some "INFORMATION_REQUEST" ∨
      (analyzeIntentAndClassify o ui dc).intent = some "PROCESSING_REQUEST") ∨
    (∃ r, o = ProcessorOutcome.response (some r) ∧
      (1/2 : ℚ) ≤ r.confidence.getD (1/2) ∧
      (analyzeIntentAndClassify o ui dc).intent =
        some (r.intent.getD "PROCESSING_REQUEST")) := by
  cases o with
  | unavailable =>
    left
    unfold analyzeIntentAndClassify createConsolidatedFallback
    dsimp only
    split_ifs <;> simp
  | agentError =>
    left
    unfold analyzeIntentAndClassify ensureRequiredFields createSmartFallback
    dsimp only
    split_ifs <;> simp
  | response ro =>
    cases ro with
    | none =>
      left
      unfold analyzeIntentAndClassify ensureRequiredFields createSmartFallback
      dsimp only
      split_ifs <;> simp
    | some r =>
      by_cases hc : r.confidence.getD (1/2) < (1/2 : ℚ)
      · left
        unfold analyzeIntentAndClassify applySmartEnhancements
        dsimp only
        rw [if_pos hc]
        cases hr : r.reasoning with
        | none =>
          unfold ensureRequiredFields createSmartFallback
          dsimp only
          split_ifs <;> simp
        | some reas =>
          unfold ensureRequiredFields
          dsimp only
          simp
      · right
        refine ⟨r, rfl, not_lt.mp hc, ?_⟩
        unfold analyzeIntentAndClassify applySmartEnhancements ensureRequiredFields
        dsimp only
        rw [if_neg hc]
        split_ifs <;> rfl

/-- C8 counterexample: the ppt processor's validation keeps a parsed
response's confidence of 0.3 but still stamps `fallback_used = false`,
violating the claimed invariant on that resolver. -/
theorem C8_counterexample :
    (validateAndEnhanceResponse
      ⟨some "CREATE_PRESENTATION", some (3/10), some "low confidence guess", some 12,
        some ["Highlights"], none⟩ "make slides" "project document").confidence =
      some (3/10) ∧
    (validateAndEnhanceResponse
      ⟨some "CREATE_PRESENTATION", some (3/10), some "low confidence guess", some 12,
        some ["Highlights"], none⟩ "make slides" "project document").fallback_used =
      some false := by
  constructor <;> rfl

/-- C8 amended: the pdf intent resolver does satisfy the invariant - every
analysis it returns with confidence below 0.5 has `fallback_used = true`;
the ppt presentation processor does not preserve it (it stamps
`fallback_used = false` on every successfully parsed response regardless of
confidence). -/
theorem C8_low_confidence_fallback (o : ProcessorOutcome) (ui dc : String) (c : ℚ)
    (hc : (analyzeIntentAndClassify o ui dc).confidence = some c)
    (hlt : c < (1/2 : ℚ)) :
    (analyzeIntentAndClassify o ui dc).fallback_used = some true := by
  cases o with
  | unavailable =>
    exfalso
    unfold analyzeIntentAndClassify createConsolidatedFallback at hc
    dsimp only at hc
    split_ifs at hc <;>
      (simp only [Option.some.injEq] at hc; rw [← hc] at hlt; norm_num at hlt)
  | agentError =>
    exfalso
    unfold analyzeIntentAndClassify ensureRequiredFields createSmartFallback at hc
    dsimp only at hc
    split_ifs at hc <;>
      (simp only [Option.getD, Option.some.injEq] at hc; rw [← hc] at hlt;
        norm_num at hlt)
  | response ro =>
    cases ro with
    | none =>
      exfalso
      unfold analyzeIntentAndClassify ensureRequiredFields createSmartFallback at hc
      dsimp only at hc
      split_ifs at hc <;>
        (simp only [Option.getD, Option.some.injEq] at hc; rw [← hc] at hlt;
          norm_num at hlt)
    | some r =>
      by_cases h5 : r.confidence.getD (1/2) < (1/2 : ℚ)
      · unfold analyzeIntentAndClassify applySmartEnhancements
        dsimp only
        rw [if_pos h5]
        cases hr : r.reasoning with
        | none =>
          exfalso
          unfold analyzeIntentAndClassify applySmartEnhancements at hc
          dsimp only at hc
          rw [if_pos h5, hr] at hc
          unfold ensureRequiredFields createSmartFallback at hc
          dsimp only at hc
          split_ifs at hc <;>
            (simp only [Option.getD, Option.some.injEq] at hc; rw [← hc] at hlt;
              norm_num at hlt)
        | some reas =>
          unfold ensureRequiredFields
          dsimp only
      · exfalso
        unfold analyzeIntentAndClassify applySmartEnhancements ensureRequiredFields at hc
        dsimp only at hc
        rw [if_neg h5] at hc
        rcases hx : r.confidence with _ | x
        · rw [hx] at hc
          split_ifs at hc <;>
            (simp only [Option.getD, Option.some.injEq] at hc; rw [← hc] at hlt;
              norm_num at hlt)
        · rw [hx] at hc h5
          split_ifs at hc <;>
            (simp only [Option.getD, Option.some.injEq] at hc;
              rw [← hc] at hlt;
              simp only [Option.getD] at h5;
              exact h5 hlt)

/-- C8 witness: a parsed pdf response with confidence 0.3 and a reasoning
string keeps its confidence and is marked as having used the fallback. -/
theorem C8_low_confidence_fallback_witness :
    (analyzeIntentAndClassify
      (ProcessorOutcome.response (some
        ⟨some "PROCESSING_REQUEST", none, some (3/10), none, some "weak guess",
         none, none⟩)) "do something" "meeting notes").confidence = some (3/10) ∧
    (analyzeIntentAndClassify
      (ProcessorOutcome.response (some
        ⟨some "PROCESSING_REQUEST", none, some (3/10), none, some "weak guess",
         none, none⟩)) "do something" "meeting notes").fallback_used = some true := by
  have hconf : (analyzeIntentAndClassify
      (ProcessorOutcome.response (some
        ⟨some "PROCESSING_REQUEST", none, some (3/10), none, some "weak guess",
         none, none⟩)) "do something" "meeting notes").confidence = some (3/10) := by
    unfold analyzeIntentAndClassify applySmartEnhancements ensureRequiredFields
    dsimp only [Option.getD]
    rw [if_pos (by norm_num)]
  exact ⟨hconf,
    C8_low_confidence_fallback _ "do something" "meeting notes" (3/10) hconf
      (by norm_num)⟩

/-- The document branch on an error status must have come from the builder
failing, whose handler appends the generic assistant message. -/
theorem processWithDocument_error (sid : String) (conv : List Msg) (dc : String)
    (ui0 : Option String) (ft0 : Option String) (um : String) (oracles : PptOracles)
    (herr : (processWithDocument sid conv dc ui0 ft0 um oracles).status = "error") :
    (processWithDocument sid conv dc ui0 ft0 um oracles).conversation_history =
      conv ++ [Msg.mk "assistant" pptGenericErrorText] := by
  unfold processWithDocument buildPptResponse at herr ⊢
  dsimp only at herr ⊢
  split at herr
  next hInfo => simp at herr
  next hInfo =>
    rw [if_neg hInfo]
    split at herr
    next hCreate =>
      rw [if_pos hCreate]
      split at herr
      next e heq =>
        rfl
      next b heq =>
        simp at herr
    next hCreate =>
      rw [if_neg hCreate]
      simp at herr

/-- C9 counterexample: the empty-user-message input error returns the
conversation transcript unchanged - no generic assistant message is
appended, only `error_message` is set. -/
theorem C9_counterexample :
    (processConversationRequest ⟨"S1", [], ""⟩
      ⟨PptOutcome.unavailable, fun _ => none, fun _ _ => none, fun _ => none,
        fun _ => Except.error "boom"⟩).status = "error" ∧
    (processConversationRequest ⟨"S1", [], ""⟩
      ⟨PptOutcome.unavailable, fun _ => none, fun _ _ => none, fun _ => none,
        fun _ => Except.error "boom"⟩).conversation_history = [] ∧
    (processConversationRequest ⟨"S1", [], ""⟩
      ⟨PptOutcome.unavailable, fun _ => none, fun _ _ => none, fun _ => none,
        fun _ => Except.error "boom"⟩).error_message = some "User message required" := by
  refine ⟨rfl, rfl, rfl⟩

/-- C9 amended: error responses for a non-blank user message (the fatal
rendering path) do append the generic assistant message after the user
message; only the empty-user-message input error leaves the transcript
untouched. -/
theorem C9_error_appends_assistant (req : PptRequest) (oracles : PptOracles)
    (hmsg : pyStrip req.user_message ≠ "")
    (herr : (processConversationRequest req oracles).status = "error") :
    (processConversationRequest req oracles).conversation_history =
      req.conversation_history ++
        [Msg.mk "user" (pyStrip req.user_message),
         Msg.mk "assistant" pptGenericErrorText] := by
  revert herr
  unfold processConversationRequest
  rw [if_neg hmsg]
  dsimp only
  rcases hdoc : (parseDocumentExtraction (pyStrip req.user_message)).document_content with
    _ | dc
  · dsimp only
    by_cases hcont : isContinuationRequest (pyStrip req.user_message)
        (req.conversation_history ++ [Msg.mk "user" (pyStrip req.user_message)]) = true
    · rw [if_pos hcont]
      rcases hhist : extractDocumentFromHistory
          (req.conversation_history ++ [Msg.mk "user" (pyStrip req.user_message)]) with
        _ | p
      · intro herr
        simp [buildPptResponse] at herr
      · dsimp only
        intro herr
        rw [processWithDocument_error _ _ _ _ _ _ _ herr, List.append_assoc]
        rfl
    · rw [if_neg hcont]
      intro herr
      simp [buildPptResponse] at herr
  · dsimp only
    intro herr
    rw [processWithDocument_error _ _ _ _ _ _ _ herr, List.append_assoc]
    rfl

/-- C9 witness: a tagged upload with a failing builder produces an error
response whose transcript ends with the generic assistant message. -/
theorem C9_error_appends_assistant_witness :
    (processConversationRequest ⟨"S2", [], "[pdf_extraction]doc"⟩
      ⟨PptOutcome.unavailable, fun _ => none, fun _ _ => none, fun _ => none,
        fun _ => Except.error "disk full"⟩).conversation_history =
      [] ++ [Msg.mk "user" (pyStrip "[pdf_extraction]doc"),
        Msg.mk "assistant" pptGenericErrorText] :=
  C9_error_appends_assistant ⟨"S2", [], "[pdf_extraction]doc"⟩
    ⟨PptOutcome.unavailable, fun _ => none, fun _ _ => none, fun _ => none,
      fun _ => Except.error "disk full"⟩ (by decide) (by decide)

end DocGen
